import Mathlib

/-
Verification of the paysage backend modules
  src/paysage/backends/python_backend/matrix.py   (numpy / numexpr / numba facade)
  src/paysage/backends/pytorch_backend/matrix.py  (torch facade)

Modelling conventions.
Tensors are modelled at exact-value level: a vector is a List of rationals and a
matrix is a List of rows.  float32 arithmetic is idealised as exact rational (or,
where a square root occurs, real) arithmetic.  In-place operations (numexpr with
out=x, torch mul_/add_) are modelled as functions returning the new value stored
in their first tensor argument; the embedding is pure, so an argument that the
source never writes to is unchanged by construction.  The randomness drawn by
numpy.random.choice inside fast_energy_distance is made explicit: the drawn index
vectors are passed as arguments, and valid_draw characterises exactly the values
that numpy.random.choice(numpy.arange(len), size=n) can produce.
-/

namespace python_backend

/-- EPSILON (python_backend/matrix.py line 5): numpy.finfo(numpy.float32).eps,
the float32 machine epsilon 2 ^ (-23), as an exact rational. -/
def EPSILON : ℚ := 1 / 8388608

/-- mix_inplace (python_backend/matrix.py lines 84-90):
ne.evaluate of the elementwise expression w*x + (1-w)*y, written into x.
Modelled as returning the value stored into x. -/
def mix_inplace (w : ℚ) (x y : List (List ℚ)) : List (List ℚ) :=
  List.zipWith (List.zipWith (fun a b => w * a + (1 - w) * b)) x y

/-- square_mix_inplace (python_backend/matrix.py lines 92-98):
ne.evaluate of the elementwise expression w*x + (1-w)*y*y, written into x. -/
def square_mix_inplace (w : ℚ) (x y : List (List ℚ)) : List (List ℚ) :=
  List.zipWith (List.zipWith (fun a b => w * a + (1 - w) * b * b)) x y

/-- normalize (python_backend/matrix.py lines 108-114):
y = EPSILON + x (scalar broadcast), then x / numpy.sum(y).
Stated for 1-D tensors; numpy.sum with no axis sums every entry. -/
def normalize (x : List ℚ) : List ℚ :=
  x.map (fun a => a / (x.map (fun b => EPSILON + b)).sum)

/-- Modelled from the spec (claim C5): the claimed bare one-call delegation for
normalize, dividing x by numpy.sum(x) with no EPSILON regularisation added by
the wrapper.  This definition follows the spec words, to be compared with
normalize as translated from the source. -/
def normalize_delegation (x : List ℚ) : List ℚ :=
  x.map (fun a => a / x.sum)

/-- Default relative tolerance of numpy.allclose: rtol = 1e-05. -/
def allclose_rtol : ℚ := 1 / 100000

/-- Default absolute tolerance of numpy.allclose: atol = 1e-08. -/
def allclose_atol : ℚ := 1 / 100000000

/-- allclose (python_backend/matrix.py lines 155-156): numpy.allclose(x, y) with
default tolerances, a single boolean that holds when every entry satisfies
abs(x - y) <= atol + rtol * abs(y) (numpy documented semantics). -/
def allclose (x y : List ℚ) : Bool :=
  (List.zipWith (fun a b => decide (|a - b| ≤ allclose_atol + allclose_rtol * |b|)) x y).all
    (fun b => b)

/-- outer (python_backend/matrix.py lines 188-189): numpy.outer(x, y), the matrix
with entries x_i * y_j. -/
def outer (x y : List ℚ) : List (List ℚ) :=
  x.map (fun a => y.map (fun b => a * b))

end python_backend

namespace pytorch_backend

/-- EPSILON (pytorch_backend/matrix.py line 4): numpy.finfo(numpy.float32).eps,
the float32 machine epsilon 2 ^ (-23), as an exact rational. -/
def EPSILON : ℚ := 1 / 8388608

/-- mix_inplace (pytorch_backend/matrix.py lines 94-103):
x.mul_(w) followed by x.add_(y.mul(1-w)).  Modelled as returning the value
stored into x; y is only read (y.mul is out-of-place). -/
def mix_inplace (w : ℚ) (x y : List (List ℚ)) : List (List ℚ) :=
  List.zipWith (List.zipWith (fun a b => a + b))
    (x.map (List.map (fun a => a * w)))
    (y.map (List.map (fun b => b * (1 - w))))

/-- square_mix_inplace (pytorch_backend/matrix.py lines 105-114):
x.mul_(w) followed by x.add_(y.mul(y).mul(1-w)). -/
def square_mix_inplace (w : ℚ) (x y : List (List ℚ)) : List (List ℚ) :=
  List.zipWith (List.zipWith (fun a b => a + b))
    (x.map (List.map (fun a => a * w)))
    (y.map (List.map (fun b => b * b * (1 - w))))

/-- normalize (pytorch_backend/matrix.py lines 123-128):
x.div(torch.sum(EPSILON + x)), stated for 1-D tensors. -/
def normalize (x : List ℚ) : List ℚ :=
  x.map (fun a => a / (x.map (fun b => EPSILON + b)).sum)

/-- allclose (pytorch_backend/matrix.py lines 187-188):
torch.le(torch.abs(x - y), EPSILON), an elementwise boolean tensor. -/
def allclose (x y : List ℚ) : List Bool :=
  List.zipWith (fun a b => decide (|a - b| ≤ EPSILON)) x y

/-- outer (pytorch_backend/matrix.py lines 230-231): torch.ger(x, y), the matrix
with entries x_i * y_j. -/
def outer (x y : List ℚ) : List (List ℚ) :=
  x.map (fun a => y.map (fun b => a * b))

end pytorch_backend

/- General list access helpers used throughout. -/

lemma zipWith_getD {α β γ : Type} (f : α → β → γ) (da : α) (db : β) (dc : γ)
    (l₁ : List α) (l₂ : List β) (i : ℕ) (h₁ : i < l₁.length) (h₂ : i < l₂.length) :
    (List.zipWith f l₁ l₂).getD i dc = f (l₁.getD i da) (l₂.getD i db) := by
  have hz : i < (List.zipWith f l₁ l₂).length := by
    rw [List.length_zipWith]; exact lt_min h₁ h₂
  rw [List.getD_eq_getElem _ dc hz, List.getD_eq_getElem _ da h₁,
    List.getD_eq_getElem _ db h₂, List.getElem_zipWith]

lemma map_getD {α β : Type} (f : α → β) (da : α) (db : β)
    (l : List α) (i : ℕ) (h : i < l.length) :
    (l.map f).getD i db = f (l.getD i da) := by
  have hm : i < (l.map f).length := by simpa using h
  rw [List.getD_eq_getElem _ db hm, List.getD_eq_getElem _ da h, List.getElem_map]

lemma zipWith_congr_fun {α β γ : Type} (f g : α → β → γ) (h : ∀ a b, f a b = g a b)
    (l₁ : List α) (l₂ : List β) : List.zipWith f l₁ l₂ = List.zipWith g l₁ l₂ := by
  have hfg : f = g := by funext a b; exact h a b
  rw [hfg]

lemma sum_map_add_const (c : ℚ) : ∀ x : List ℚ,
    (x.map (fun b => c + b)).sum = x.sum + x.length * c
  | [] => by simp
  | a :: t => by
      simp only [List.map_cons, List.sum_cons, sum_map_add_const c t, List.length_cons]
      push_cast
      ring

/-- C1: the claim that every function defined in both backends gives corresponding
results on corresponding inputs fails: numpy.allclose is a tolerance test
abs(x-y) <= atol + rtol*abs(y) reduced to one boolean, while the torch backend's
allclose is an elementwise comparison of abs(x-y) against EPSILON = 2^(-23).
On the float32-representable pair x = [1], y = [1 + 2^(-20)] the python backend
answers true while the pytorch backend answers [false]. -/
theorem C1_allclose_backends_disagree :
    python_backend.allclose [1] [1 + 1 / 1048576] = true ∧
    pytorch_backend.allclose [1] [1 + 1 / 1048576] = [false] := by
  have habs : |(1 : ℚ) - (1 + 1 / 1048576)| = 1 / 1048576 := by
    rw [show (1 : ℚ) - (1 + 1 / 1048576) = -(1 / 1048576) by ring, abs_neg,
      abs_of_nonneg (by norm_num : (0 : ℚ) ≤ 1 / 1048576)]
  constructor
  · simp only [python_backend.allclose, python_backend.allclose_atol,
      python_backend.allclose_rtol, List.zipWith_cons_cons, List.zipWith_nil_right,
      List.all_cons, List.all_nil, Bool.and_true, decide_eq_true_eq]
    rw [habs, abs_of_nonneg (by norm_num : (0 : ℚ) ≤ 1 + 1 / 1048576)]
    norm_num
  · simp only [pytorch_backend.allclose, pytorch_backend.EPSILON,
      List.zipWith_cons_cons, List.zipWith_nil_right, List.cons.injEq, and_true,
      decide_eq_false_iff_not]
    rw [habs]
    norm_num

/-- C1 amended: the backends are not behaviourally interchangeable (allclose
disagrees, see the counterexample), but the elementwise arithmetic operations do
agree on corresponding inputs: square_mix_inplace, normalize and outer compute
identical values in the two backends. -/
theorem C1_elementwise_ops_agree (w : ℚ) (x y : List (List ℚ)) (v u : List ℚ) :
    python_backend.square_mix_inplace w x y = pytorch_backend.square_mix_inplace w x y ∧
    python_backend.normalize v = pytorch_backend.normalize v ∧
    python_backend.outer v u = pytorch_backend.outer v u := by
  refine ⟨?_, rfl, rfl⟩
  unfold python_backend.square_mix_inplace pytorch_backend.square_mix_inplace
  rw [List.zipWith_map]
  apply zipWith_congr_fun
  intro r s
  rw [List.zipWith_map]
  apply zipWith_congr_fun
  intro a b
  ring

/-- C5: the claim that every operation is a bare one-call delegation to the
underlying library fails on normalize: the wrapper adds EPSILON to every entry
of the denominator sum before delegating, so on the input [1] it returns
[1 / (1 + 2^(-23))], not the bare delegation result [1]. -/
theorem C5_normalize_not_bare_delegation :
    python_backend.normalize [1] ≠ python_backend.normalize_delegation [1] := by
  simp only [python_backend.normalize, python_backend.normalize_delegation,
    python_backend.EPSILON, List.map_cons, List.map_nil, List.sum_cons, List.sum_nil,
    ne_eq, List.cons.injEq, and_true]
  norm_num

/-- C5 amended: most operations are one-line delegations, but normalize is not a
bare delegation: it regularises the denominator, dividing x elementwise by
sum(x) + len(x) * EPSILON rather than by sum(x). -/
theorem C5_normalize_regularised (x : List ℚ) :
    python_backend.normalize x =
      x.map (fun a => a / (x.sum + x.length * python_backend.EPSILON)) := by
  unfold python_backend.normalize
  rw [sum_map_add_const]

/-- C6: mix_inplace in either backend stores into x the elementwise weighted
average w * x + (1 - w) * y of the previous value of x and of y; in this pure
embedding the value stored into x is the returned matrix, and y, which the
source only reads, is unchanged by construction.  Entry (i, j) of the result is
w * x_ij + (1 - w) * y_ij in both backends. -/
theorem C6_mix_inplace_weighted_average (w : ℚ) (x y : List (List ℚ)) (i j : ℕ)
    (hix : i < x.length) (hiy : i < y.length)
    (hjx : j < (x.getD i []).length) (hjy : j < (y.getD i []).length) :
    ((python_backend.mix_inplace w x y).getD i []).getD j 0 =
      w * ((x.getD i []).getD j 0) + (1 - w) * ((y.getD i []).getD j 0) ∧
    ((pytorch_backend.mix_inplace w x y).getD i []).getD j 0 =
      w * ((x.getD i []).getD j 0) + (1 - w) * ((y.getD i []).getD j 0) := by
  constructor
  · unfold python_backend.mix_inplace
    rw [zipWith_getD _ [] [] [] x y i hix hiy]
    rw [zipWith_getD _ 0 0 0 _ _ j hjx hjy]
  · unfold pytorch_backend.mix_inplace
    rw [List.zipWith_map]
    rw [zipWith_getD _ [] [] [] x y i hix hiy]
    rw [List.zipWith_map]
    rw [zipWith_getD _ 0 0 0 _ _ j hjx hjy]
    ring

/-- C6 witness: the theorem applied at w = 1/2, x = [[1]], y = [[3]],
entry (0, 0); the weighted average is 2. -/
theorem C6_mix_inplace_weighted_average_witness :
    (0 < ([[(1 : ℚ)]] : List (List ℚ)).length ∧ 0 < ([[(3 : ℚ)]] : List (List ℚ)).length ∧
     0 < (([[(1 : ℚ)]] : List (List ℚ)).getD 0 []).length ∧
     0 < (([[(3 : ℚ)]] : List (List ℚ)).getD 0 []).length) ∧
    (((python_backend.mix_inplace (1 / 2) [[1]] [[3]]).getD 0 []).getD 0 0 =
      (1 / 2) * ((([[(1 : ℚ)]] : List (List ℚ)).getD 0 []).getD 0 0) +
        (1 - 1 / 2) * ((([[(3 : ℚ)]] : List (List ℚ)).getD 0 []).getD 0 0) ∧
     ((pytorch_backend.mix_inplace (1 / 2) [[1]] [[3]]).getD 0 []).getD 0 0 =
      (1 / 2) * ((([[(1 : ℚ)]] : List (List ℚ)).getD 0 []).getD 0 0) +
        (1 - 1 / 2) * ((([[(3 : ℚ)]] : List (List ℚ)).getD 0 []).getD 0 0)) :=
  ⟨by decide,
   C6_mix_inplace_weighted_average (1 / 2) [[1]] [[3]] 0 0
     (by decide) (by decide) (by decide) (by decide)⟩

/-- Result of a torch reduction: full reductions (no dim argument) return a
Python number, i.e. a scalar, while reductions along a dim return a tensor with
the given shape. -/
inductive ReducedShape where
  | scalar : ReducedShape
  | tensor : List ℕ → ReducedShape
deriving DecidableEq

namespace python_backend

/-- Shape behaviour of the nine reductions tmax, tmin, mean, var, std, tsum,
tprod, tany, tall (python_backend/matrix.py lines 125-150): each one calls the
matching numpy reduction with keepdims=True, whose documented shape semantics
leave every reduced axis in the result as a dimension of size one; with
axis=None every axis is reduced, giving an all-ones shape of the same rank. -/
def reduce_shape (s : List ℕ) (axis : Option ℕ) : List ℕ :=
  match axis with
  | some i => s.set i 1
  | none => s.map (fun _ => 1)

end python_backend

namespace pytorch_backend

/-- Shape behaviour of the nine reductions tmax, tmin, mean, var, std, tsum,
tprod, tany, tall (pytorch_backend/matrix.py lines 136-182): with an axis each
one calls the matching torch reduction with dim=axis, which in the torch
generation this repository targets keeps the reduced dimension with size one
(the comment at python_backend/matrix.py lines 122-123 records that keepdims
matches torch); with axis=None each one calls the full torch reduction, which
returns a Python number, not a tensor. -/
def reduce_shape (s : List ℕ) (axis : Option ℕ) : ReducedShape :=
  match axis with
  | some i => ReducedShape.tensor (s.set i 1)
  | none => ReducedShape.scalar

end pytorch_backend

/-- C3: the claim that the two backends return reduction results of the same
shape for every axis argument fails at axis=None: on a 2 x 2 input the python
backend returns a keepdims array of shape [1, 1] while the torch backend
returns a scalar, not a tensor. -/
theorem C3_axis_none_shapes_disagree :
    pytorch_backend.reduce_shape [2, 2] none ≠
      ReducedShape.tensor (python_backend.reduce_shape [2, 2] none) := by
  decide

/-- C3 amended: for reductions along a valid dimension index the two backends
agree on the result shape: both keep the reduced dimension with size one, and
the rank is preserved; only the axis=None case diverges (python keepdims array
of all-ones shape versus torch scalar, see the counterexample). -/
theorem C3_axis_reduction_shapes_agree (s : List ℕ) (i : ℕ) (h : i < s.length) :
    pytorch_backend.reduce_shape s (some i) =
      ReducedShape.tensor (python_backend.reduce_shape s (some i)) ∧
    (python_backend.reduce_shape s (some i)).length = s.length :=
  ⟨rfl, List.length_set s i 1⟩

/-- C3 witness: the amended theorem applied to shape [2, 3] and axis 0. -/
theorem C3_axis_reduction_shapes_agree_witness :
    0 < ([2, 3] : List ℕ).length ∧
    (pytorch_backend.reduce_shape [2, 3] (some 0) =
      ReducedShape.tensor (python_backend.reduce_shape [2, 3] (some 0)) ∧
     (python_backend.reduce_shape [2, 3] (some 0)).length = ([2, 3] : List ℕ).length) :=
  ⟨by decide, C3_axis_reduction_shapes_agree [2, 3] 0 (by decide)⟩

/-- Python exception outcomes arising in these two modules.  notImplementedError
models raise NotImplementedError; typeError models the TypeError that CPython
raises when the operand of a raise statement is not an exception object. -/
inductive PyError where
  | notImplementedError : PyError
  | typeError : PyError
deriving DecidableEq

namespace pytorch_backend

/-- batch_dot (pytorch_backend/matrix.py lines 247-258): the body is a bare
raise NotImplementedError, so every call fails; the raise being the first and
only statement, no argument is ever written to.  The axis parameter carries the
source's default value 1 explicitly. -/
def batch_dot (vis W hid : List (List ℚ)) (axis : ℕ) : Except PyError (List ℚ) :=
  Except.error PyError.notImplementedError

/-- batch_outer (pytorch_backend/matrix.py lines 260-270): bare raise
NotImplementedError. -/
def batch_outer (vis hid : List (List ℚ)) : Except PyError (List (List ℚ)) :=
  Except.error PyError.notImplementedError

/-- repeat (pytorch_backend/matrix.py lines 272-273): bare raise
NotImplementedError.  The source name repeat is a Lean keyword, hence the
guillemets. -/
def «repeat» (tensor : List (List ℚ)) (n axis : ℕ) : Except PyError (List (List ℚ)) :=
  Except.error PyError.notImplementedError

/-- stack (pytorch_backend/matrix.py lines 275-276): bare raise
NotImplementedError. -/
def stack (tensors : List (List (List ℚ))) (axis : ℕ) : Except PyError (List (List ℚ)) :=
  Except.error PyError.notImplementedError

/-- hstack (pytorch_backend/matrix.py lines 278-279): bare raise
NotImplementedError. -/
def hstack (tensors : List (List (List ℚ))) : Except PyError (List (List ℚ)) :=
  Except.error PyError.notImplementedError

/-- vstack (pytorch_backend/matrix.py lines 281-282): bare raise
NotImplementedError. -/
def vstack (tensors : List (List (List ℚ))) : Except PyError (List (List ℚ)) :=
  Except.error PyError.notImplementedError

/-- trange (pytorch_backend/matrix.py lines 284-285): bare raise
NotImplementedError.  The source's second parameter is named end, a Lean
keyword, written stop here. -/
def trange (start stop step : ℚ) : Except PyError (List ℚ) :=
  Except.error PyError.notImplementedError

/-- squared_euclidean_distance (pytorch_backend/matrix.py lines 292-297): bare
raise NotImplementedError. -/
def squared_euclidean_distance (a b : List ℚ) : Except PyError ℚ :=
  Except.error PyError.notImplementedError

/-- euclidean_distance (pytorch_backend/matrix.py lines 299-304): bare raise
NotImplementedError. -/
def euclidean_distance (a b : List ℚ) : Except PyError ℚ :=
  Except.error PyError.notImplementedError

/-- fast_energy_distance (pytorch_backend/matrix.py lines 306-307): bare raise
NotImplementedError.  The downsample parameter carries the source's default
value 100 explicitly. -/
def fast_energy_distance (minibatch samples : List (List ℚ)) (downsample : ℕ) :
    Except PyError ℚ :=
  Except.error PyError.notImplementedError

end pytorch_backend

/-- C4: each of the ten functions batch_dot, batch_outer, repeat, stack, hstack,
vstack, trange, squared_euclidean_distance, euclidean_distance and
fast_energy_distance in the pytorch backend is an unimplemented stub: for every
input it raises NotImplementedError; the raise being the only statement of each
body, the arguments are left unchanged (the embedding is pure, mirroring that no
argument is written to before the raise). -/
theorem C4_torch_stubs_raise (vis W hid t mb sm : List (List ℚ))
    (ts : List (List (List ℚ))) (a b : List ℚ) (n axis ds : ℕ) (start stop step : ℚ) :
    pytorch_backend.batch_dot vis W hid axis = Except.error PyError.notImplementedError ∧
    pytorch_backend.batch_outer vis hid = Except.error PyError.notImplementedError ∧
    pytorch_backend.«repeat» t n axis = Except.error PyError.notImplementedError ∧
    pytorch_backend.stack ts axis = Except.error PyError.notImplementedError ∧
    pytorch_backend.hstack ts = Except.error PyError.notImplementedError ∧
    pytorch_backend.vstack ts = Except.error PyError.notImplementedError ∧
    pytorch_backend.trange start stop step = Except.error PyError.notImplementedError ∧
    pytorch_backend.squared_euclidean_distance a b = Except.error PyError.notImplementedError ∧
    pytorch_backend.euclidean_distance a b = Except.error PyError.notImplementedError ∧
    pytorch_backend.fast_energy_distance mb sm ds = Except.error PyError.notImplementedError :=
  ⟨rfl, rfl, rfl, rfl, rfl, rfl, rfl, rfl, rfl, rfl⟩

/-- Metadata view of a torch tensor: the string that tensor.type() returns. -/
structure TorchTensorMeta where
  typeName : String

/-- Metadata view of a numpy array: its dtype attribute. -/
structure NpArrayMeta where
  dtypeName : String

namespace pytorch_backend

/-- dtype (pytorch_backend/matrix.py lines 83-84): the body is
raise tensor.type().  tensor.type() evaluates to a plain string, and a raise
whose operand does not derive from BaseException itself raises TypeError, so
the call raises for every input and never returns a value. -/
def dtype (t : TorchTensorMeta) : Except PyError String :=
  Except.error PyError.typeError

end pytorch_backend

namespace python_backend

/-- dtype (python_backend/matrix.py lines 73-74): returns tensor.dtype. -/
def dtype (a : NpArrayMeta) : Except PyError String :=
  Except.ok a.dtypeName

end python_backend

/-- C8: in the pytorch backend dtype never returns a value: its body is
raise tensor.type() rather than return tensor.type(), so for every input the
call raises (a TypeError, the raised string not being an exception object),
while the python backend's dtype returns tensor.dtype normally. -/
theorem C8_torch_dtype_always_raises (t : TorchTensorMeta) (a : NpArrayMeta) :
    pytorch_backend.dtype t = Except.error PyError.typeError ∧
    python_backend.dtype a = Except.ok a.dtypeName :=
  ⟨rfl, rfl⟩

namespace python_backend

/-- squared_euclidean_distance (python_backend/matrix.py lines 245-254): the
numba kernel accumulating (a[i] - b[i])**2 for i in range(len(a)). -/
def squared_euclidean_distance (a b : List ℚ) : ℚ :=
  ((List.range a.length).map (fun i => (a.getD i 0 - b.getD i 0) ^ 2)).sum

/-- euclidean_distance (python_backend/matrix.py lines 256-262):
math.sqrt(squared_euclidean_distance(a, b)), float32 arithmetic idealised over
the reals. -/
noncomputable def euclidean_distance (a b : List ℚ) : ℝ :=
  Real.sqrt ((squared_euclidean_distance a b : ℚ) : ℝ)

/-- Row i of a matrix.  Numba nopython kernels do not bounds-check, so an
out-of-range read has no defined value; it is modelled by the default row []
here and the indices actually used are analysed in claim C9. -/
def row (t : List (List ℚ)) (i : ℕ) : List ℚ := t.getD i []

/-- The index vectors that numpy.random.choice(numpy.arange(len), size=n) can
return (lines 273-274): n entries, each a valid index below len (choice draws
with replacement, so repetitions are possible). -/
def valid_draw (len n : ℕ) (idx : List ℕ) : Prop :=
  idx.length = n ∧ ∀ k ∈ idx, k < len

/-- The d1 accumulation of fast_energy_distance (python_backend/matrix.py lines
276-278): for i in range(n-1), for j in range(i+1, n), the distance between the
minibatch rows selected by index_1[i] and index_1[j]. -/
noncomputable def fed_d1_sum (minibatch : List (List ℚ)) (index_1 : List ℕ) (n : ℕ) : ℝ :=
  ((List.range (n - 1)).map (fun i =>
    (((List.range n).drop (i + 1)).map (fun j =>
      euclidean_distance (row minibatch (index_1.getD i 0))
        (row minibatch (index_1.getD j 0)))).sum)).sum

/-- The d2 accumulation of fast_energy_distance (python_backend/matrix.py lines
281-283), faithful to the source: the first row index applied to samples is
index_1[i], the draw made for minibatch, not index_2[i]. -/
noncomputable def fed_d2_sum (samples : List (List ℚ)) (index_1 index_2 : List ℕ)
    (m : ℕ) : ℝ :=
  ((List.range (m - 1)).map (fun i =>
    (((List.range m).drop (i + 1)).map (fun j =>
      euclidean_distance (row samples (index_1.getD i 0))
        (row samples (index_2.getD j 0)))).sum)).sum

/-- The d3 accumulation of fast_energy_distance (python_backend/matrix.py lines
286-288): for i in index_1, for j in index_2, iterating over the drawn index
values themselves. -/
noncomputable def fed_d3_sum (minibatch samples : List (List ℚ))
    (index_1 index_2 : List ℕ) : ℝ :=
  (index_1.map (fun i =>
    (index_2.map (fun j =>
      euclidean_distance (row minibatch i) (row samples j))).sum)).sum

/-- fast_energy_distance (python_backend/matrix.py lines 264-291), with the
randomness made explicit: index_1 and index_2 are the index vectors returned by
the two numpy.random.choice calls at lines 273-274.  n and m, the divisions and
the final combination follow the source line by line; float division by zero
(n = 1 or m = 1) is idealised by the reals' zero-division convention. -/
noncomputable def fast_energy_distance (minibatch samples : List (List ℚ))
    (downsample : ℕ) (index_1 index_2 : List ℕ) : ℝ :=
  let n := min minibatch.length downsample
  let m := min samples.length downsample
  let d1 := 2 * fed_d1_sum minibatch index_1 n / ((n * n - n : ℕ) : ℝ)
  let d2 := 2 * fed_d2_sum samples index_1 index_2 m / ((m * m - m : ℕ) : ℝ)
  let d3 := fed_d3_sum minibatch samples index_1 index_2 / ((n * m : ℕ) : ℝ)
  2 * d3 - d2 - d1

/-- Modelled from the spec (claim C2): the d2 accumulation as the claim words
it, the pairwise distances within the samples subsample, both rows taken from
the index_2 draw. -/
noncomputable def fed_d2_sum_claimed (samples : List (List ℚ)) (index_2 : List ℕ)
    (m : ℕ) : ℝ :=
  ((List.range (m - 1)).map (fun i =>
    (((List.range m).drop (i + 1)).map (fun j =>
      euclidean_distance (row samples (index_2.getD i 0))
        (row samples (index_2.getD j 0)))).sum)).sum

/-- Modelled from the spec (claim C2): fast_energy_distance as the claim
describes it, identical to the source except that its d2 term is
fed_d2_sum_claimed, the mean pairwise distance within the samples subsample. -/
noncomputable def fast_energy_distance_claimed (minibatch samples : List (List ℚ))
    (downsample : ℕ) (index_1 index_2 : List ℕ) : ℝ :=
  let n := min minibatch.length downsample
  let m := min samples.length downsample
  let d1 := 2 * fed_d1_sum minibatch index_1 n / ((n * n - n : ℕ) : ℝ)
  let d2 := 2 * fed_d2_sum_claimed samples index_2 m / ((m * m - m : ℕ) : ℝ)
  let d3 := fed_d3_sum minibatch samples index_1 index_2 / ((n * m : ℕ) : ℝ)
  2 * d3 - d2 - d1

/-- The row indices that the d2 loop of fast_energy_distance applies to samples
(python_backend/matrix.py line 283): index_1[i] for i in range(m-1), and
index_2[j] for j in range(i+1, m). -/
def fed_d2_row_indices (index_1 index_2 : List ℕ) (m : ℕ) : List ℕ :=
  ((List.range (m - 1)).map (fun i => index_1.getD i 0)) ++
  ((List.range (m - 1)).map (fun i =>
    ((List.range m).drop (i + 1)).map (fun j => index_2.getD j 0))).flatten

/-- fed_d2_sum reads samples only through the rows listed by
fed_d2_row_indices: two sample matrices agreeing on those rows give the same d2
accumulation. -/
lemma fed_d2_sum_reads_only_indexed_rows (s s' : List (List ℚ))
    (i1 i2 : List ℕ) (m : ℕ)
    (h : ∀ k ∈ fed_d2_row_indices i1 i2 m, row s k = row s' k) :
    fed_d2_sum s i1 i2 m = fed_d2_sum s' i1 i2 m := by
  unfold fed_d2_sum
  congr 1
  apply List.map_congr_left
  intro i hi
  congr 1
  apply List.map_congr_left
  intro j hj
  rw [h (i1.getD i 0) (List.mem_append_left _ (List.mem_map_of_mem _ hi)),
    h (i2.getD j 0) (List.mem_append_right _
      (List.mem_flatten.mpr ⟨_, List.mem_map_of_mem _ hi, List.mem_map_of_mem _ hj⟩))]

end python_backend

/- Concrete evaluation helpers for euclidean_distance on one-entry rows, where
the square root is exact. -/

lemma abs_eval (x c : ℝ) (hc : 0 ≤ c) (h : x = c ∨ x = -c) : |x| = c := by
  rcases h with h | h
  · rw [h, abs_of_nonneg hc]
  · rw [h, abs_neg, abs_of_nonneg hc]

lemma squared_euclidean_distance_single (a b : ℚ) :
    python_backend.squared_euclidean_distance [a] [b] = (a - b) ^ 2 := by
  simp [python_backend.squared_euclidean_distance, List.range_succ]

lemma euclidean_distance_single (a b : ℚ) :
    python_backend.euclidean_distance [a] [b] = |(a : ℝ) - (b : ℝ)| := by
  unfold python_backend.euclidean_distance
  rw [squared_euclidean_distance_single]
  push_cast
  exact Real.sqrt_sq_eq_abs _

lemma ed_00 : python_backend.euclidean_distance [0] [0] = 0 := by
  rw [euclidean_distance_single]
  exact abs_eval _ _ le_rfl (by push_cast; norm_num)

lemma ed_02 : python_backend.euclidean_distance [0] [2] = 2 := by
  rw [euclidean_distance_single]
  exact abs_eval _ _ (by norm_num) (by push_cast; norm_num)

lemma ed_40 : python_backend.euclidean_distance [4] [0] = 4 := by
  rw [euclidean_distance_single]
  exact abs_eval _ _ (by norm_num) (by push_cast; norm_num)

lemma ed_42 : python_backend.euclidean_distance [4] [2] = 2 := by
  rw [euclidean_distance_single]
  exact abs_eval _ _ (by norm_num) (by push_cast; norm_num)

lemma ed_22 : python_backend.euclidean_distance [2] [2] = 0 := by
  rw [euclidean_distance_single]
  exact abs_eval _ _ le_rfl (by push_cast; norm_num)

lemma ed_44 : python_backend.euclidean_distance [4] [4] = 0 := by
  rw [euclidean_distance_single]
  exact abs_eval _ _ le_rfl (by push_cast; norm_num)

/- Evaluations of fast_energy_distance on the fixed input
minibatch = [[0],[4]], samples = [[0],[2]], downsample = 2, under several
admissible random draws. -/

lemma fed_eval_draw_10 :
    python_backend.fast_energy_distance [[0], [4]] [[0], [2]] 2 [1, 0] [0, 1] = 0 := by
  unfold python_backend.fast_energy_distance python_backend.fed_d1_sum
    python_backend.fed_d2_sum python_backend.fed_d3_sum
  norm_num [python_backend.row, List.range_succ, ed_00, ed_02, ed_40, ed_42, ed_22, ed_44]

lemma fed_eval_claimed_10 :
    python_backend.fast_energy_distance_claimed [[0], [4]] [[0], [2]] 2 [1, 0] [0, 1] = -2 := by
  unfold python_backend.fast_energy_distance_claimed python_backend.fed_d1_sum
    python_backend.fed_d2_sum_claimed python_backend.fed_d3_sum
  norm_num [python_backend.row, List.range_succ, ed_00, ed_02, ed_40, ed_42, ed_22, ed_44]

lemma fed_eval_draw_00 :
    python_backend.fast_energy_distance [[0], [4]] [[0], [2]] 2 [0, 0] [0, 1] = 0 := by
  unfold python_backend.fast_energy_distance python_backend.fed_d1_sum
    python_backend.fed_d2_sum python_backend.fed_d3_sum
  norm_num [python_backend.row, List.range_succ, ed_00, ed_02, ed_40, ed_42, ed_22, ed_44]

lemma fed_eval_draw_11 :
    python_backend.fast_energy_distance [[0], [4]] [[0], [2]] 2 [1, 1] [0, 1] = 6 := by
  unfold python_backend.fast_energy_distance python_backend.fed_d1_sum
    python_backend.fed_d2_sum python_backend.fed_d3_sum
  norm_num [python_backend.row, List.range_succ, ed_00, ed_02, ed_40, ed_42, ed_22, ed_44]

/-- C2: fast_energy_distance does not compute the claimed statistic: at line 283
the d2 loop reads samples[index_1[i]], the index vector drawn for minibatch,
where the symmetric d1 and d3 loops show samples[index_2[i]] was intended, so
its d2 is not the mean pairwise distance within the samples subsample.  At
minibatch [[0],[4]], samples [[0],[2]], downsample 2, under the admissible draw
index_1 = [1,0], index_2 = [0,1], the code returns 0 while the claimed formula
gives -2. -/
theorem C2_fed_d2_uses_wrong_index_vector :
    python_backend.valid_draw 2 2 [1, 0] ∧ python_backend.valid_draw 2 2 [0, 1] ∧
    python_backend.fast_energy_distance [[0], [4]] [[0], [2]] 2 [1, 0] [0, 1] = 0 ∧
    python_backend.fast_energy_distance_claimed [[0], [4]] [[0], [2]] 2 [1, 0] [0, 1] = -2 := by
  refine ⟨?_, ?_, fed_eval_draw_10, fed_eval_claimed_10⟩
  · unfold python_backend.valid_draw
    exact ⟨rfl, by decide⟩
  · unfold python_backend.valid_draw
    exact ⟨rfl, by decide⟩

/-- C7: the claim that every operation is stateless, so that two calls with
equal arguments return equal results, fails on fast_energy_distance: it draws
its subsample indices from numpy's global random generator, and on the same
arguments minibatch [[0],[4]], samples [[0],[2]], downsample 2 two admissible
draws yield 0 and 6. -/
theorem C7_same_arguments_different_results :
    python_backend.valid_draw 2 2 [0, 0] ∧ python_backend.valid_draw 2 2 [1, 1] ∧
    python_backend.valid_draw 2 2 [0, 1] ∧
    python_backend.fast_energy_distance [[0], [4]] [[0], [2]] 2 [0, 0] [0, 1] ≠
      python_backend.fast_energy_distance [[0], [4]] [[0], [2]] 2 [1, 1] [0, 1] := by
  refine ⟨?_, ?_, ?_, ?_⟩
  · unfold python_backend.valid_draw
    exact ⟨rfl, by decide⟩
  · unfold python_backend.valid_draw
    exact ⟨rfl, by decide⟩
  · unfold python_backend.valid_draw
    exact ⟨rfl, by decide⟩
  · rw [fed_eval_draw_00, fed_eval_draw_11]
    norm_num

/-- C7 amended: every operation except fast_energy_distance is a deterministic
function of its arguments; fast_energy_distance additionally depends on the
state of numpy's global random generator through the two index draws: there are
arguments and two admissible draws under which the results differ. -/
theorem C7_fed_depends_on_rng_draw :
    ∃ (mb s : List (List ℚ)) (ds : ℕ) (i1 i2 i1' i2' : List ℕ),
      python_backend.valid_draw mb.length (min mb.length ds) i1 ∧
      python_backend.valid_draw s.length (min s.length ds) i2 ∧
      python_backend.valid_draw mb.length (min mb.length ds) i1' ∧
      python_backend.valid_draw s.length (min s.length ds) i2' ∧
      python_backend.fast_energy_distance mb s ds i1 i2 ≠
        python_backend.fast_energy_distance mb s ds i1' i2' := by
  refine ⟨[[0], [4]], [[0], [2]], 2, [0, 0], [0, 1], [1, 1], [0, 1], ?_, ?_, ?_, ?_, ?_⟩
  · unfold python_backend.valid_draw
    exact ⟨rfl, by decide⟩
  · unfold python_backend.valid_draw
    exact ⟨rfl, by decide⟩
  · unfold python_backend.valid_draw
    exact ⟨rfl, by decide⟩
  · unfold python_backend.valid_draw
    exact ⟨rfl, by decide⟩
  · rw [fed_eval_draw_00, fed_eval_draw_11]
    norm_num

/-- C9: the claim that every index fast_energy_distance applies to samples in
the d2 loop is below len(samples) fails on the code: the first row index at
line 283 comes from index_1, which is drawn from range(len(minibatch)), so
whenever minibatch is longer than samples it can reach past the end of samples.
With len(minibatch) = 3, len(samples) = 2, downsample = 2 and the admissible
draw index_1 = [2, 2], index_2 = [0, 1], the d2 loop reads samples[2] although
len(samples) = 2 (fed_d2_sum_reads_only_indexed_rows ties fed_d2_row_indices to
the d2 accumulation of fast_energy_distance). -/
theorem C9_fed_d2_reads_out_of_bounds :
    python_backend.valid_draw 3 2 [2, 2] ∧ python_backend.valid_draw 2 2 [0, 1] ∧
    ∃ k ∈ python_backend.fed_d2_row_indices [2, 2] [0, 1] (min 2 2), 2 ≤ k := by
  refine ⟨?_, ?_, ?_⟩
  · unfold python_backend.valid_draw
    exact ⟨rfl, by decide⟩
  · unfold python_backend.valid_draw
    exact ⟨rfl, by decide⟩
  · unfold python_backend.fed_d2_row_indices
    decide

namespace python_backend

/-- numpy.dot for 2-D arrays, as batch_dot calls it: the matrix product, whose
entry (i, m) is the dot product of row i of A with column m of B; the number of
result columns is the common row length of B. -/
def np_dot (A B : List (List ℚ)) : List (List ℚ) :=
  A.map (fun r =>
    (List.range (B.headD []).length).map (fun m =>
      ((List.range r.length).map (fun n => r.getD n 0 * (B.getD n []).getD m 0)).sum))

/-- batch_dot (python_backend/matrix.py lines 200-211) with the default axis=1:
(numpy.dot(vis, W) * hid).sum(1).astype(float32), the matrix product of vis and
W multiplied elementwise with hid and each row summed; astype(float32) is the
identity in this exact-arithmetic model.  The keepdims-free ndarray.sum(1) on a
2-D array returns a plain vector. -/
def batch_dot (vis W hid : List (List ℚ)) : List ℚ :=
  List.zipWith (fun prow hrow => (List.zipWith (fun a b => a * b) prow hrow).sum)
    (np_dot vis W) hid

end python_backend

/- Summation helpers for claim C10. -/

lemma sum_map_range_eq (f : ℕ → ℚ) : ∀ k : ℕ,
    ((List.range k).map f).sum = ∑ n in Finset.range k, f n
  | 0 => by simp
  | k + 1 => by
      rw [List.range_succ, List.map_append, List.sum_append, Finset.sum_range_succ,
        sum_map_range_eq f k]
      simp

lemma zipWith_mul_map_range_sum (g : ℕ → ℚ) (l : List ℚ) (M : ℕ) (hl : l.length = M) :
    (List.zipWith (fun a b => a * b) ((List.range M).map g) l).sum =
      ∑ m in Finset.range M, g m * l.getD m 0 := by
  subst hl
  induction l generalizing g with
  | nil => simp
  | cons a t ih =>
      rw [List.length_cons, List.range_succ_eq_map, List.map_cons, List.map_map,
        List.zipWith_cons_cons, List.sum_cons, ih (g ∘ Nat.succ),
        Finset.sum_range_succ' (fun m => g m * (a :: t).getD m 0) t.length]
      simp only [Function.comp, List.getD_cons_succ, List.getD_cons_zero]
      exact add_comm _ _

lemma getD_mem_of_lt {α : Type} (l : List α) (i : ℕ) (d : α) (h : i < l.length) :
    l.getD i d ∈ l := by
  rw [List.getD_eq_getElem l d h]
  exact List.getElem_mem h

/-- C10: batch_dot(vis, W, hid) with the default axis = 1, for an L x N matrix
vis, an N x M matrix W and an L x M matrix hid, returns a length-L vector whose
entry i is the quadratic form of row i of vis and row i of hid through W,
the double sum over n and m of vis[i][n] * W[n][m] * hid[i][m]. -/
theorem C10_batch_dot_quadratic_form (L N M : ℕ) (vis W hid : List (List ℚ))
    (hvL : vis.length = L) (hvR : ∀ r ∈ vis, r.length = N)
    (hWL : W.length = N) (hWR : ∀ r ∈ W, r.length = M)
    (hhL : hid.length = L) (hhR : ∀ r ∈ hid, r.length = M)
    (hN : 0 < N) :
    (python_backend.batch_dot vis W hid).length = L ∧
    ∀ i, i < L → (python_backend.batch_dot vis W hid).getD i 0 =
      ∑ n in Finset.range N, ∑ m in Finset.range M,
        (vis.getD i []).getD n 0 * ((W.getD n []).getD m 0 * (hid.getD i []).getD m 0) := by
  have hnpL : (python_backend.np_dot vis W).length = L := by
    rw [python_backend.np_dot, List.length_map, hvL]
  have hM : (W.headD []).length = M := by
    rcases W with _ | ⟨w0, Wt⟩
    · simp at hWL
      omega
    · exact hWR w0 (List.mem_cons_self w0 Wt)
  constructor
  · rw [python_backend.batch_dot, List.length_zipWith, hnpL, hhL, min_self]
  · intro i hiL
    have hinp : i < (python_backend.np_dot vis W).length := by rw [hnpL]; exact hiL
    have hihid : i < hid.length := by rw [hhL]; exact hiL
    have hivis : i < vis.length := by rw [hvL]; exact hiL
    have hvisRow : (vis.getD i []).length = N :=
      hvR _ (getD_mem_of_lt vis i [] hivis)
    have hhidRow : (hid.getD i []).length = M :=
      hhR _ (getD_mem_of_lt hid i [] hihid)
    rw [python_backend.batch_dot,
      zipWith_getD _ [] [] 0 (python_backend.np_dot vis W) hid i hinp hihid]
    rw [show (python_backend.np_dot vis W).getD i [] =
        (List.range M).map (fun m =>
          ((List.range (vis.getD i []).length).map (fun n =>
            (vis.getD i []).getD n 0 * (W.getD n []).getD m 0)).sum) by
      rw [python_backend.np_dot, map_getD _ [] [] vis i hivis, hM]]
    rw [zipWith_mul_map_range_sum _ (hid.getD i []) M hhidRow]
    calc
      ∑ m in Finset.range M,
          ((List.range (vis.getD i []).length).map (fun n =>
            (vis.getD i []).getD n 0 * (W.getD n []).getD m 0)).sum *
            (hid.getD i []).getD m 0
        = ∑ m in Finset.range M,
            (∑ n in Finset.range N,
              (vis.getD i []).getD n 0 * (W.getD n []).getD m 0) *
              (hid.getD i []).getD m 0 := by
          refine Finset.sum_congr rfl fun m _ => ?_
          rw [hvisRow, sum_map_range_eq]
      _ = ∑ m in Finset.range M, ∑ n in Finset.range N,
            (vis.getD i []).getD n 0 * (W.getD n []).getD m 0 *
              (hid.getD i []).getD m 0 := by
          refine Finset.sum_congr rfl fun m _ => ?_
          exact Finset.sum_mul _ _ _
      _ = ∑ n in Finset.range N, ∑ m in Finset.range M,
            (vis.getD i []).getD n 0 * (W.getD n []).getD m 0 *
              (hid.getD i []).getD m 0 := Finset.sum_comm
      _ = ∑ n in Finset.range N, ∑ m in Finset.range M,
            (vis.getD i []).getD n 0 *
              ((W.getD n []).getD m 0 * (hid.getD i []).getD m 0) := by
          refine Finset.sum_congr rfl fun n _ => Finset.sum_congr rfl fun m _ => ?_
          exact mul_assoc _ _ _

/-- C10 witness: the theorem applied at vis = [[1, 2]], W = [[3, 4], [5, 6]],
hid = [[7, 8]]; the single entry is 1*3*7 + 1*4*8 + 2*5*7 + 2*6*8 = 219. -/
theorem C10_batch_dot_quadratic_form_witness :
    (([[(1 : ℚ), 2]] : List (List ℚ)).length = 1 ∧
     (∀ r ∈ ([[(1 : ℚ), 2]] : List (List ℚ)), r.length = 2) ∧
     ([[(3 : ℚ), 4], [5, 6]] : List (List ℚ)).length = 2 ∧
     (∀ r ∈ ([[(3 : ℚ), 4], [5, 6]] : List (List ℚ)), r.length = 2) ∧
     ([[(7 : ℚ), 8]] : List (List ℚ)).length = 1 ∧
     (∀ r ∈ ([[(7 : ℚ), 8]] : List (List ℚ)), r.length = 2) ∧
     0 < 2) ∧
    ((python_backend.batch_dot [[1, 2]] [[3, 4], [5, 6]] [[7, 8]]).length = 1 ∧
     ∀ i, i < 1 → (python_backend.batch_dot [[1, 2]] [[3, 4], [5, 6]] [[7, 8]]).getD i 0 =
       ∑ n in Finset.range 2, ∑ m in Finset.range 2,
         (([[(1 : ℚ), 2]] : List (List ℚ)).getD i []).getD n 0 *
           ((([[(3 : ℚ), 4], [5, 6]] : List (List ℚ)).getD n []).getD m 0 *
             (([[(7 : ℚ), 8]] : List (List ℚ)).getD i []).getD m 0)) :=
  ⟨⟨rfl, by decide, rfl, by decide, rfl, by decide, by decide⟩,
   C10_batch_dot_quadratic_form 1 2 2 [[1, 2]] [[3, 4], [5, 6]] [[7, 8]]
     rfl (by decide) rfl (by decide) rfl (by decide) (by decide)⟩
